import Mathlib

set_option maxRecDepth 100000

/-!
Shallow embedding of the AMMO trading agent's analysis pipeline
(`ammo_trading_agent`): regime (personality) detection, sentiment scoring,
recommendation synthesis and risk-parameter computation, translated from the
Python sources.  Python floats are modelled by exact rationals (ℚ); pandas
NaN values are modelled by `Option ℚ` with `none` for NaN (every comparison
against `none` is false, as NaN comparisons are in Python); Python `int()`
truncation toward zero is modelled explicitly; exceptions are modelled with
`Except`.
-/

namespace Ammo

/-! ### utils/constants.py -/

/-- `MAX_RISK_PER_TRADE = 0.02` (max 2% of portfolio per trade). -/
def MAX_RISK_PER_TRADE : ℚ := 0.02

/-- `MAX_DRAWDOWN = 0.10` (max 10% portfolio drawdown). -/
def MAX_DRAWDOWN : ℚ := 0.10

/-- `MARKET_PERSONALITIES["TRENDING_UP"]`. -/
def TRENDING_UP : String := "Trending Up"

/-- `MARKET_PERSONALITIES["TRENDING_DOWN"]`. -/
def TRENDING_DOWN : String := "Trending Down"

/-- `MARKET_PERSONALITIES["VOLATILE"]`. -/
def VOLATILE : String := "Volatile"

/-- `MARKET_PERSONALITIES["RANGE_BOUND"]`. -/
def RANGE_BOUND : String := "Range-Bound"

/-- `MARKET_PERSONALITIES["NEUTRAL"]`. -/
def NEUTRAL : String := "Neutral"

/-! ### Python primitives used by the embedding -/

/-- Python `int(x)` on a float: truncation toward zero. -/
def pyInt (x : ℚ) : ℤ :=
  if 0 ≤ x then ⌊x⌋ else ⌈x⌉

/-- Search for `needle` as a contiguous subsequence of a character list:
the Python `in` operator on strings. -/
def subsearch (needle : List Char) : List Char → Bool
  | [] => needle.isEmpty
  | l@(_ :: t) => needle.isPrefixOf l || subsearch needle t

/-- Python `needle in hay` for strings. -/
def strContains (hay needle : String) : Bool :=
  subsearch needle.data hay.data

/-! ### modules/risk_manager.py -/

/-- The mutable state of `RiskManager` (`__init__`). -/
structure RiskManager where
  portfolio_value : ℚ
  max_risk_per_trade : ℚ
  max_drawdown : ℚ
  peak_portfolio_value : ℚ
deriving Repr, DecidableEq

/-- `RiskManager(portfolio_value)` with the default keyword arguments:
`max_risk_per_trade = MAX_RISK_PER_TRADE`, `max_drawdown = MAX_DRAWDOWN`,
and `peak_portfolio_value = portfolio_value`. -/
def RiskManager.init (portfolio_value : ℚ) : RiskManager :=
  { portfolio_value := portfolio_value
    max_risk_per_trade := MAX_RISK_PER_TRADE
    max_drawdown := MAX_DRAWDOWN
    peak_portfolio_value := portfolio_value }

/-- `RiskManager.calculate_position_size(entry_price, stop_loss_price)`:
guard on non-positive prices, then `risk_amount = portfolio_value *
max_risk_per_trade`, `risk_per_share = abs(entry_price - stop_loss_price)`,
guard `risk_per_share <= 0`, and finally `int(risk_amount / risk_per_share)`. -/
def RiskManager.calculate_position_size (rm : RiskManager)
    (entry_price stop_loss_price : ℚ) : ℤ :=
  if entry_price ≤ 0 ∨ stop_loss_price ≤ 0 then 0
  else
    let risk_amount := rm.portfolio_value * rm.max_risk_per_trade
    let risk_per_share := |entry_price - stop_loss_price|
    if risk_per_share ≤ 0 then 0
    else pyInt (risk_amount / risk_per_share)

/-- `RiskManager.calculate_target_price(entry_price, stop_loss_price,
risk_reward_ratio=2.0)`.  The method reads no instance state. -/
def RiskManager.calculate_target_price
    (entry_price stop_loss_price : ℚ) ( risk_reward_ratio : ℚ := 2) : ℚ :=
  let risk_per_share := |entry_price - stop_loss_price|
  if risk_per_share ≤ 0 then 0
  else
    let reward_per_share := risk_per_share * risk_reward_ratio
    if entry_price > stop_loss_price then entry_price + reward_per_share
    else entry_price - reward_per_share

/-- The peak update at the top of `RiskManager.check_drawdown`:
`if current > peak: peak = current`. -/
def RiskManager.updatePeak (rm : RiskManager) (current_portfolio_value : ℚ) :
    RiskManager :=
  if current_portfolio_value > rm.peak_portfolio_value then
    { rm with peak_portfolio_value := current_portfolio_value }
  else rm

/-- The drawdown expression of `check_drawdown`:
`(peak - current) / peak`. -/
def drawdownRatio (peak current : ℚ) : ℚ := (peak - current) / peak

/-- `RiskManager.check_drawdown(current_portfolio_value)`: updates the peak,
then computes `(peak - current) / peak` and compares it with `max_drawdown`.
The Python division raises `ZeroDivisionError` when the (updated) peak is 0;
ℚ division would silently return 0 there, so the zero divisor is made an
explicit `Except.error`.  Returns the updated state and the outcome. -/
def RiskManager.check_drawdown (rm : RiskManager)
    (current_portfolio_value : ℚ) : RiskManager × Except String Bool :=
  let rm2 := rm.updatePeak current_portfolio_value
  if rm2.peak_portfolio_value = 0 then (rm2, Except.error "ZeroDivisionError")
  else
    let drawdown := drawdownRatio rm2.peak_portfolio_value current_portfolio_value
    (rm2, Except.ok (decide (drawdown > rm2.max_drawdown)))

/-! ### modules/personality_detector.py -/

/-- Arithmetic mean, as used by `pandas` for a full rolling window. -/
def mean (xs : List ℚ) : ℚ := xs.sum / (xs.length : ℚ)

/-- `series.rolling(window=w).mean()` read at row index `i` (0-based,
`i < xs.length`): NaN (`none`) until `w` observations are available,
afterwards the mean of rows `i - w + 1 .. i`. -/
def rollingMeanAt (w : ℕ) (xs : List ℚ) (i : ℕ) : Option ℚ :=
  if i + 1 < w then none
  else some (mean ((xs.drop (i + 1 - w)).take w))

/-- The slope expression of `detect_personality`:
`(long_ma.iloc[-1] - long_ma.iloc[-10]) / 10 if len(long_ma) > 10 else 0`.
`long_ma` is the window-30 rolling mean of the closes; its pandas length is
`xs.length` (NaN rows included), `iloc[-1]` is row `xs.length - 1` and
`iloc[-10]` is row `xs.length - 10`.  Arithmetic on NaN gives NaN. -/
def longMaSlope (closes : List ℚ) : Option ℚ :=
  if 10 < closes.length then
    match rollingMeanAt 30 closes (closes.length - 1),
          rollingMeanAt 30 closes (closes.length - 10) with
    | some a, some b => some ((a - b) / 10)
    | _, _ => none
  else some 0

/-- Number of non-NaN entries of the window-30 rolling mean (the "long-MA
points"): rows `29 .. xs.length - 1`. -/
def longMaCount (closes : List ℚ) : ℕ := closes.length - 29

/-- `price_data['close'].pct_change().dropna()`: consecutive relative
changes.  (Assumes nonzero previous closes; pandas would produce `inf`
on a zero divisor, which only feeds the volatility reading.) -/
def pctChange (xs : List ℚ) : List ℚ :=
  List.zipWith (fun prev cur => (cur - prev) / prev) xs (xs.drop 1)

/-- `returns.std()` squared: the pandas sample variance (`ddof=1`), NaN
(`none`) on fewer than two observations. -/
def sampleVar (rs : List ℚ) : Option ℚ :=
  if rs.length < 2 then none
  else some ((rs.map (fun r => (r - mean rs) ^ 2)).sum / ((rs.length : ℚ) - 1))

/-- The test `volatility > 0.3` where
`volatility = returns.std() * np.sqrt(252)`.  Squaring both (non-negative)
sides keeps the comparison in ℚ: it holds iff `252 * var > 0.09`; a NaN
volatility compares false. -/
def volHigh (closes : List ℚ) : Bool :=
  match sampleVar (pctChange closes) with
  | some v => decide (252 * v > 0.09)
  | none => false

/-- NaN-aware `abs(slope) > c`: false when the slope is NaN. -/
def optAbsGt (x : Option ℚ) (c : ℚ) : Bool :=
  match x with
  | some a => decide (|a| > c)
  | none => false

/-- NaN-aware `slope > 0`: false when the slope is NaN. -/
def optPos (x : Option ℚ) : Bool :=
  match x with
  | some a => decide (a > 0)
  | none => false

/-- `PersonalityDetector.detect_personality(price_data)`, as a function of
the close column (the only column the method reads).  An empty frame has
length 0 < 20, so the `price_data.empty` disjunct is subsumed. -/
def detect_personality (closes : List ℚ) : String :=
  if closes.length < 20 then NEUTRAL
  else
    let slope := longMaSlope closes
    if optAbsGt slope 0.5 then
      if optPos slope then TRENDING_UP else TRENDING_DOWN
    else if volHigh closes then VOLATILE
    else RANGE_BOUND

/-! ### modules/sentiment_analyzer.py -/

/-- `SentimentAnalyzer.get_market_sentiment`, live path, as a function of the
fetched article titles: score `len(title) % 10 / 10.0` per headline, averaged
over the first ten articles; `0.5` when no articles were found.  (The empty
guard also covers the Python `if sentiment_scores else 0.5` fallback.) -/
def live_sentiment_score (titles : List String) : ℚ :=
  if titles.isEmpty then 0.5
  else
    let sentiment_scores := (titles.take 10).map
      (fun t => ((t.length % 10 : ℕ) : ℚ) / 10)
    sentiment_scores.sum / (sentiment_scores.length : ℚ)

/-- The `requests.exceptions.RequestException` fallback score of
`get_market_sentiment`. -/
def error_sentiment_score : ℚ := 0.5

/-- `SentimentAnalyzer._get_simulated_sentiment`, as a function of the
`random.uniform(0.1, 0.9)` sample: the score is the sample itself and the
summary is keyed on the 0.6 / 0.4 thresholds. -/
def get_simulated_sentiment (u : ℚ) : ℚ × String :=
  (u,
    if u > 0.6 then
      "Overall sentiment is positive, with strong buying signals from social media."
    else if u > 0.4 then
      "Market sentiment is neutral. Mixed signals from news sources."
    else
      "Negative sentiment detected, driven by recent market news.")

/-! ### ammo_agent.py -/

/-- Floor of a rational, computed by floor division of numerator by
denominator (kernel-reducible). -/
def ratFloor (q : ℚ) : ℤ := q.num.fdiv q.den

/-- Round a rational to the nearest integer with ties to even: the rounding
used by Python float formatting, transcribed to exact rationals. -/
def roundHalfEven (x : ℚ) : ℤ :=
  let f := ratFloor x
  let r := x - (f : ℚ)
  if r < 1/2 then f
  else if r > 1/2 then f + 1
  else if f % 2 = 0 then f else f + 1

/-- The Python format expression `f"{x:.2f}"`, on exact rationals:
round-half-even at the second decimal, always two digits after the point. -/
def fmt2 (x : ℚ) : String :=
  let n := roundHalfEven (x * 100)
  let sign := if n < 0 then "-" else ""
  let m := n.natAbs
  sign ++ toString (m / 100) ++ "." ++
    (if m % 100 < 10 then "0" else "") ++ toString (m % 100)

/-- The record returned by `AmmoAgent._synthesize_recommendation`. -/
structure Recommendation where
  signal : String
  should_trade : Bool
  reason : String
deriving Repr, DecidableEq

/-- `AmmoAgent._synthesize_recommendation(sentiment_score,
market_personality)`: the four-way decision on personality and sentiment,
with the exact f-string rationales of the source. -/
def synthesize_recommendation (sentiment_score : ℚ)
    (market_personality : String) : Recommendation :=
  if market_personality = TRENDING_UP ∧ sentiment_score > 0.15 then
    if sentiment_score > 0.5 then
      { signal := "STRONG BUY", should_trade := true
        reason := "The stock is in a strong \x27" ++ market_personality ++
          "\x27 pattern with very positive market sentiment (score: " ++
          fmt2 sentiment_score ++
          "). This indicates a high-confidence buying opportunity." }
    else
      { signal := "BUY", should_trade := true
        reason := "The stock is in a \x27" ++ market_personality ++
          "\x27 pattern and the market sentiment is positive (score: " ++
          fmt2 sentiment_score ++
          "). This alignment suggests a potential buying opportunity." }
  else if market_personality = TRENDING_DOWN ∧ sentiment_score < -0.15 then
    if sentiment_score < -0.5 then
      { signal := "STRONG SELL", should_trade := true
        reason := "The stock is in a strong \x27" ++ market_personality ++
          "\x27 pattern with very negative market sentiment (score: " ++
          fmt2 sentiment_score ++
          "). This indicates a high-confidence selling or shorting opportunity." }
    else
      { signal := "SELL", should_trade := true
        reason := "The stock is in a \x27" ++ market_personality ++
          "\x27 pattern and the market sentiment is negative (score: " ++
          fmt2 sentiment_score ++
          "). This alignment suggests a potential selling or shorting opportunity." }
  else if market_personality = VOLATILE ∨ market_personality = RANGE_BOUND then
    { signal := "HOLD", should_trade := false
      reason := "The market personality is \x27" ++ market_personality ++
        "\x27, which suggests a lack of a clear directional trend. It is advisable to wait for a clearer market structure before entering a trade." }
  else
    { signal := "HOLD", should_trade := false
      reason := "The market signals are conflicting. The personality is \x27" ++
        market_personality ++
        "\x27 but sentiment is neutral or contrary (score: " ++
        fmt2 sentiment_score ++ "). It\x27s best to stay on the sidelines." }

/-- The record returned by `AmmoAgent._calculate_risk_parameters`. -/
structure RiskAssessment where
  position_size : ℤ
  stop_loss_price : ℚ
  target_price : ℚ
  risk_reward_str : String
  portfolio_value : ℚ
deriving Repr, DecidableEq

/-- `AmmoAgent._calculate_risk_parameters(entry_price, signal)`:
`RISK_FACTOR = 0.05`, `RISK_REWARD_RATIO = 2.0`; the stop-loss depends on the
substring tests `"BUY" in signal` / `"SELL" in signal`, then position size
and target price come from the risk manager. -/
def calculate_risk_parameters (rm : RiskManager) (entry_price : ℚ)
    (signal : String) : RiskAssessment :=
  let stop_loss_price :=
    if strContains signal "BUY" then entry_price * (1 - 0.05)
    else if strContains signal "SELL" then entry_price * (1 + 0.05)
    else 0
  { position_size := rm.calculate_position_size entry_price stop_loss_price
    stop_loss_price := stop_loss_price
    target_price := RiskManager.calculate_target_price entry_price stop_loss_price 2
    risk_reward_str := "1:2.0"
    portfolio_value := rm.portfolio_value }

/-! ### modules/data_collector.py and AmmoAgent.run_analysis

`DataCollector.get_price_data` returns, on every code path (live, error and
simulated), a *pair* `(DataFrame, error-or-None)`.  `AmmoAgent.run_analysis`
then evaluates `price_data.empty` on that pair.  Python resolves attribute
access dynamically, so the embedding carries a small dynamic-value type:
`.empty` is defined on a DataFrame and raises `AttributeError` on anything
else (a tuple has no `empty` attribute). -/

/-- A price DataFrame, reduced to its close column (the only column
`run_analysis` and `detect_personality` read). -/
structure DataFrame where
  closes : List ℚ
deriving Repr, DecidableEq

/-- Dynamic Python values flowing out of `get_price_data`. -/
inductive PyVal where
  | df (d : DataFrame)
  | tup2 (a b : PyVal)
  | str (s : String)
  | pyNone
deriving Repr

/-- Python exceptions reachable in `run_analysis`. -/
inductive PyErr where
  | attributeError (msg : String)
deriving Repr, DecidableEq

/-- Dynamic attribute access `x.empty`: defined on a DataFrame, raises
`AttributeError` otherwise. -/
def pyEmptyAttr : PyVal → Except PyErr Bool
  | PyVal.df d => Except.ok d.closes.isEmpty
  | _ => Except.error (PyErr.attributeError "tuple object has no attribute empty")

/-- `DataCollector.get_price_data(symbol, time_frame, output_size)`: every
return statement of the method yields the pair `(df, error_or_none)`; the
DataFrame contents and the error slot depend on network and simulation
state, so they are parameters here. -/
def get_price_data (rows : List ℚ) (err : Option String) : PyVal :=
  PyVal.tup2 (PyVal.df ⟨rows⟩)
    (match err with
     | some m => PyVal.str m
     | none => PyVal.pyNone)

/-- A `run_analysis` outcome: the `{"error": ...}` dictionary or the full
analysis-results dictionary. -/
inductive RunResult where
  | errorResult (msg : String)
  | results (symbol : String) (latest_price : ℚ) (sentiment_score : ℚ)
      (market_personality : String) (risk : RiskAssessment)
      (recommendation : Recommendation)
deriving Repr

/-- `AmmoAgent.run_analysis(symbol, time_frame)`, as a function of the data
returned by the collaborators (`rows`/`err` from the Price Source,
`sentiment_score` from the Sentiment Source).  The source evaluates
`price_data.empty` on the pair returned by `get_price_data`; the remaining
steps (reachable only if that attribute access succeeded) follow the
source line by line on the DataFrame component. -/
def run_analysis (rm : RiskManager) (symbol time_frame : String)
    (rows : List ℚ) (err : Option String) (sentiment_score : ℚ) :
    Except PyErr RunResult :=
  let price_data := get_price_data rows err
  match pyEmptyAttr price_data with
  | Except.error e => Except.error e
  | Except.ok true =>
      Except.ok (RunResult.errorResult
        ("Could not retrieve " ++ time_frame ++ " price data for " ++ symbol ++
          ". The symbol may be invalid or the API may be unavailable."))
  | Except.ok false =>
      let latest_price := rows.getLastD 0
      let market_personality := detect_personality rows
      let recommendation := synthesize_recommendation sentiment_score market_personality
      let risk := calculate_risk_parameters rm latest_price recommendation.signal
      Except.ok (RunResult.results symbol latest_price sentiment_score
        market_personality risk recommendation)

/-- A 39-bar strictly increasing close series (closes 1, 2, …, 39): at 39
bars the window-30 rolling mean has exactly 10 non-NaN points. -/
def series39 : List ℚ :=
  [1, 2, 3, 4, 5, 6, 7, 8, 9, 10, 11, 12, 13, 14, 15, 16, 17, 18, 19, 20,
   21, 22, 23, 24, 25, 26, 27, 28, 29, 30, 31, 32, 33, 34, 35, 36, 37, 38, 39]

/-! ## Helper lemmas -/

lemma isPrefixOf_self_append (b c : List Char) : b.isPrefixOf (b ++ c) = true := by
  induction b with
  | nil => simp [List.isPrefixOf]
  | cons h t ih => simp [List.isPrefixOf, ih]

lemma subsearch_self_append (b c : List Char) : subsearch b (b ++ c) = true := by
  cases b with
  | nil =>
    cases c with
    | nil => rfl
    | cons h t => simp [subsearch]
  | cons h t => simp [subsearch, isPrefixOf_self_append]

lemma subsearch_append_left (b : List Char) {l : List Char}
    (h : subsearch b l = true) (a : List Char) : subsearch b (a ++ l) = true := by
  induction a with
  | nil => simpa using h
  | cons x t ih => simp [subsearch, ih]

/-- The first component of `check_drawdown` is the peak-updated state. -/
lemma check_drawdown_fst (rm : RiskManager) (c : ℚ) :
    (rm.check_drawdown c).1 = rm.updatePeak c := by
  unfold RiskManager.check_drawdown
  dsimp only
  split <;> rfl

lemma updatePeak_peak (rm : RiskManager) (c : ℚ) :
    (rm.updatePeak c).peak_portfolio_value =
      if rm.peak_portfolio_value < c then c else rm.peak_portfolio_value := by
  unfold RiskManager.updatePeak
  rcases lt_or_ge rm.peak_portfolio_value c with h | h
  · rw [if_pos h, if_pos h]
  · rw [if_neg (not_lt.mpr h), if_neg (not_lt.mpr h)]

/-! ## Claims -/

/-- C6: `calculate_position_size` returns 0 whenever `entry == stop`,
`entry ≤ 0` or `stop ≤ 0`; otherwise, with
`riskAmount = portfolioValue * maxRiskPerTrade` and
`riskPerShare = |entry - stop|`, the returned integer `n` satisfies the
floor-division bound `n * riskPerShare ≤ riskAmount < (n+1) * riskPerShare`
(in exact arithmetic, for a non-negative portfolio value). -/
theorem position_size_floor_property (pv e s : ℚ) (hpv : 0 ≤ pv) :
    ((e = s ∨ e ≤ 0 ∨ s ≤ 0) → (RiskManager.init pv).calculate_position_size e s = 0) ∧
    (0 < e → 0 < s → e ≠ s →
      (((RiskManager.init pv).calculate_position_size e s : ℚ) * |e - s| ≤
          pv * MAX_RISK_PER_TRADE ∧
        pv * MAX_RISK_PER_TRADE <
          (((RiskManager.init pv).calculate_position_size e s : ℚ) + 1) * |e - s|)) := by
  constructor
  · rintro (rfl | h | h)
    · unfold RiskManager.calculate_position_size
      rcases le_or_lt e 0 with he | he
      · rw [if_pos (Or.inl he)]
      · rw [if_neg (by push_neg; exact ⟨he, he⟩)]
        simp
    · unfold RiskManager.calculate_position_size
      rw [if_pos (Or.inl h)]
    · unfold RiskManager.calculate_position_size
      rw [if_pos (Or.inr h)]
  · intro he hs hne
    have hr : (0 : ℚ) < |e - s| := abs_pos.mpr (sub_ne_zero.mpr hne)
    have hA : (0 : ℚ) ≤ pv * MAX_RISK_PER_TRADE := by
      apply mul_nonneg hpv
      norm_num [MAX_RISK_PER_TRADE]
    have hq : (0 : ℚ) ≤ pv * MAX_RISK_PER_TRADE / |e - s| := div_nonneg hA hr.le
    have hval : (RiskManager.init pv).calculate_position_size e s =
        ⌊pv * MAX_RISK_PER_TRADE / |e - s|⌋ := by
      unfold RiskManager.calculate_position_size
      rw [if_neg (by push_neg; exact ⟨he, hs⟩), if_neg (not_le.mpr hr)]
      show pyInt (pv * MAX_RISK_PER_TRADE / |e - s|) = _
      unfold pyInt
      rw [if_pos hq]
    rw [hval]
    constructor
    · rw [← le_div_iff₀ hr]
      exact_mod_cast Int.floor_le (pv * MAX_RISK_PER_TRADE / |e - s|)
    · rw [← div_lt_iff₀ hr]
      exact_mod_cast Int.lt_floor_add_one (pv * MAX_RISK_PER_TRADE / |e - s|)

/-- Witness for C6: at `portfolio_value = 100000`, `entry = 100`,
`stop = 95` the hypotheses hold and the floor bound is realised
(position size 400, risk amount 2000, risk per share 5). -/
theorem position_size_floor_property_witness :
    (RiskManager.init 100000).calculate_position_size 100 95 = 400 ∧
    (((RiskManager.init 100000).calculate_position_size 100 95 : ℚ) * |(100 : ℚ) - 95| ≤
        100000 * MAX_RISK_PER_TRADE ∧
      100000 * MAX_RISK_PER_TRADE <
        (((RiskManager.init 100000).calculate_position_size 100 95 : ℚ) + 1) * |(100 : ℚ) - 95|) :=
  ⟨by with_unfolding_all rfl,
    (position_size_floor_property 100000 100 95 (by norm_num)).2
      (by norm_num) (by norm_num) (by norm_num)⟩

/-- C7: for `entry ≠ stop`, `calculate_target_price` puts the target at
distance `|entry - stop| * ratio` from the entry, on the opposite side of
the entry from the stop; for `entry = stop` it returns 0. -/
theorem target_price_reward_property (e s r : ℚ) (hr : 0 < r) :
    (e = s → RiskManager.calculate_target_price e s r = 0) ∧
    (e ≠ s →
      |RiskManager.calculate_target_price e s r - e| = |e - s| * r ∧
      (s < e → e < RiskManager.calculate_target_price e s r) ∧
      (e < s → RiskManager.calculate_target_price e s r < e)) := by
  constructor
  · rintro rfl
    unfold RiskManager.calculate_target_price
    simp
  · intro hne
    have hrps : (0 : ℚ) < |e - s| := abs_pos.mpr (sub_ne_zero.mpr hne)
    have hrw : (0 : ℚ) < |e - s| * r := mul_pos hrps hr
    unfold RiskManager.calculate_target_price
    rw [if_neg (not_le.mpr hrps)]
    rcases lt_or_gt_of_ne hne with hlt | hgt
    · rw [if_neg (by push_neg; exact hlt.le)]
      refine ⟨?_, fun h => absurd h (not_lt.mpr hlt.le), fun _ => by linarith⟩
      rw [sub_sub_cancel_left, abs_neg, abs_of_pos hrw]
    · rw [if_pos hgt]
      refine ⟨?_, fun _ => by linarith, fun h => absurd h (not_lt.mpr hgt.le)⟩
      rw [add_sub_cancel_left, abs_of_pos hrw]

/-- Witness for C7: `entry = 100`, `stop = 95`, `ratio = 2` gives target
110, at distance 10 above the entry while the stop is below. -/
theorem target_price_reward_property_witness :
    RiskManager.calculate_target_price 100 95 2 = 110 ∧
    |RiskManager.calculate_target_price 100 95 2 - 100| = |(100 : ℚ) - 95| * 2 ∧
    (100 : ℚ) < RiskManager.calculate_target_price 100 95 2 :=
  ⟨by with_unfolding_all rfl,
    ((target_price_reward_property 100 95 2 (by norm_num)).2 (by norm_num)).1,
    ((target_price_reward_property 100 95 2 (by norm_num)).2 (by norm_num)).2.1 (by norm_num)⟩

/-- C10: `check_drawdown` divides by the peak with no zero guard: starting
from `portfolio_value = 0`, any call with a non-positive current value hits
the division by zero (`ZeroDivisionError` branch); with a positive peak the
call returns a boolean. -/
theorem check_drawdown_zero_division :
    (∀ c : ℚ, c ≤ 0 →
      ((RiskManager.init 0).check_drawdown c).2 = Except.error "ZeroDivisionError") ∧
    (∀ (rm : RiskManager) (c : ℚ), 0 < rm.peak_portfolio_value →
      ∃ b, (rm.check_drawdown c).2 = Except.ok b) := by
  constructor
  · intro c hc
    unfold RiskManager.check_drawdown
    have hpeak : ((RiskManager.init 0).updatePeak c).peak_portfolio_value = 0 := by
      rw [updatePeak_peak]
      have : ¬ ((RiskManager.init 0).peak_portfolio_value < c) := by
        show ¬ ((0 : ℚ) < c)
        exact not_lt.mpr hc
      rw [if_neg this]
      rfl
    dsimp only
    rw [if_pos hpeak]
  · intro rm c hpk
    unfold RiskManager.check_drawdown
    have hpeak : 0 < (rm.updatePeak c).peak_portfolio_value := by
      rw [updatePeak_peak]
      split
      · linarith
      · exact hpk
    dsimp only
    rw [if_neg (ne_of_gt hpeak)]
    exact ⟨_, rfl⟩

/-- Witness for C10: the zero-portfolio call `check_drawdown(0)` raises, and
a manager with peak 100 answers `check_drawdown(50)` with a boolean. -/
theorem check_drawdown_zero_division_witness :
    ((RiskManager.init 0).check_drawdown 0).2 = Except.error "ZeroDivisionError" ∧
    ∃ b, ((RiskManager.init 100).check_drawdown 50).2 = Except.ok b :=
  ⟨check_drawdown_zero_division.1 0 (by norm_num),
    check_drawdown_zero_division.2 (RiskManager.init 100) 50 (by norm_num [RiskManager.init])⟩

/-- C2 counterexample: for `entry = 100` and signal `"HOLD"` the risk
parameters carry stop-loss 0 and position size 0, but the target price is
300, not 0: `calculate_target_price(100, 0, 2.0)` has
`risk_per_share = |100 - 0| = 100 > 0` and returns `100 + 200`. -/
theorem hold_target_price_counterexample :
    (calculate_risk_parameters (RiskManager.init 100000) 100 "HOLD").stop_loss_price = 0 ∧
    (calculate_risk_parameters (RiskManager.init 100000) 100 "HOLD").position_size = 0 ∧
    (calculate_risk_parameters (RiskManager.init 100000) 100 "HOLD").target_price = 300 ∧
    (calculate_risk_parameters (RiskManager.init 100000) 100 "HOLD").target_price ≠ 0 := by
  refine ⟨?_, ?_, ?_, ?_⟩
  · with_unfolding_all rfl
  · with_unfolding_all rfl
  · with_unfolding_all rfl
  · have h : (calculate_risk_parameters (RiskManager.init 100000) 100 "HOLD").target_price
        = 300 := by with_unfolding_all rfl
    rw [h]
    norm_num

/-- C2 amended: for a signal containing neither `"BUY"` nor `"SELL"`, the
stop-loss is 0 and the position size is 0, but the target price is computed
from the zero stop-loss and equals `3 * entry` (nonzero whenever the entry
price is nonzero). -/
theorem hold_risk_parameters (rm : RiskManager) (e : ℚ) (sig : String)
    (hb : strContains sig "BUY" = false) (hs : strContains sig "SELL" = false) :
    (calculate_risk_parameters rm e sig).stop_loss_price = 0 ∧
    (calculate_risk_parameters rm e sig).position_size = 0 ∧
    (calculate_risk_parameters rm e sig).target_price = 3 * e := by
  unfold calculate_risk_parameters
  rw [hb, hs]
  simp only [Bool.false_eq_true, if_false]
  refine ⟨trivial, ?_, ?_⟩
  · unfold RiskManager.calculate_position_size
    rw [if_pos (Or.inr le_rfl)]
  · unfold RiskManager.calculate_target_price
    rcases lt_trichotomy e 0 with hneg | hzero | hpos
    · have habs : (0 : ℚ) < |e - 0| := abs_pos.mpr (by rw [sub_zero]; exact hneg.ne)
      rw [if_neg (not_le.mpr habs), if_neg (not_lt.mpr hneg.le)]
      rw [sub_zero, abs_of_neg hneg]
      ring
    · subst hzero
      rw [if_pos (by norm_num)]
      norm_num
    · have habs : (0 : ℚ) < |e - 0| := abs_pos.mpr (by rw [sub_zero]; exact hpos.ne')
      rw [if_neg (not_le.mpr habs), if_pos hpos]
      rw [sub_zero, abs_of_pos hpos]
      ring

/-- Witness for C2 amended: signal `"HOLD"`, entry 100. -/
theorem hold_risk_parameters_witness :
    (calculate_risk_parameters (RiskManager.init 100000) 100 "HOLD").stop_loss_price = 0 ∧
    (calculate_risk_parameters (RiskManager.init 100000) 100 "HOLD").position_size = 0 ∧
    (calculate_risk_parameters (RiskManager.init 100000) 100 "HOLD").target_price = 3 * 100 :=
  hold_risk_parameters (RiskManager.init 100000) 100 "HOLD"
    (by with_unfolding_all rfl) (by with_unfolding_all rfl)

/-- C8 counterexample: on `RiskManager(100)`, calling `check_drawdown(-1)`
keeps the peak at 100 and the current value −1 is at most the peak, yet the
computed drawdown ratio `(100 - (-1)) / 100 = 101/100` exceeds 1, so the
ratio does not lie in `[0, 1]` for every `current ≤ peak`. -/
theorem drawdown_ratio_above_one_counterexample :
    (-1 : ℚ) ≤ (((RiskManager.init 100).check_drawdown (-1)).1).peak_portfolio_value ∧
    drawdownRatio (((RiskManager.init 100).check_drawdown (-1)).1).peak_portfolio_value (-1)
      = 101 / 100 ∧
    ¬ (drawdownRatio (((RiskManager.init 100).check_drawdown (-1)).1).peak_portfolio_value (-1)
        ≤ 1) := by
  have hpk : (((RiskManager.init 100).check_drawdown (-1)).1).peak_portfolio_value = 100 := by
    with_unfolding_all rfl
  rw [hpk]
  refine ⟨by norm_num, ?_, ?_⟩ <;> norm_num [drawdownRatio]

/-- C8 amended: the peak never decreases across any sequence of
`check_drawdown` calls and is updated to the current value exactly when the
current value exceeds it; and the drawdown ratio `(peak - current) / peak`
lies in `[0, 1]` whenever `0 ≤ current ≤ peak` and the peak is positive
(for a negative current value the ratio exceeds 1). -/
theorem peak_monotone_drawdown_bounds :
    (∀ (rm : RiskManager) (c : ℚ),
      rm.peak_portfolio_value ≤ ((rm.check_drawdown c).1).peak_portfolio_value ∧
      ((rm.check_drawdown c).1).peak_portfolio_value =
        if rm.peak_portfolio_value < c then c else rm.peak_portfolio_value) ∧
    (∀ (rm : RiskManager) (calls : List ℚ),
      rm.peak_portfolio_value ≤
        (calls.foldl (fun st c => (st.check_drawdown c).1) rm).peak_portfolio_value) ∧
    (∀ peak current : ℚ, 0 < peak → 0 ≤ current → current ≤ peak →
      0 ≤ drawdownRatio peak current ∧ drawdownRatio peak current ≤ 1) := by
  have hstep : ∀ (rm : RiskManager) (c : ℚ),
      rm.peak_portfolio_value ≤ ((rm.check_drawdown c).1).peak_portfolio_value := by
    intro rm c
    rw [check_drawdown_fst, updatePeak_peak]
    split
    · linarith
    · exact le_rfl
  refine ⟨fun rm c => ⟨hstep rm c, by rw [check_drawdown_fst, updatePeak_peak]⟩, ?_, ?_⟩
  · intro rm calls
    induction calls generalizing rm with
    | nil => exact le_rfl
    | cons c rest ih =>
      exact le_trans (hstep rm c) (ih ((rm.check_drawdown c).1))
  · intro peak current hpk hc hcp
    unfold drawdownRatio
    constructor
    · exact div_nonneg (by linarith) hpk.le
    · rw [div_le_one hpk]
      linarith

/-- Witness for C8 amended: peak 100, one call at 50, ratio 1/2 ∈ [0,1]. -/
theorem peak_monotone_drawdown_bounds_witness :
    ((RiskManager.init 100).peak_portfolio_value ≤
      ([(50 : ℚ)].foldl (fun st c => (st.check_drawdown c).1)
        (RiskManager.init 100)).peak_portfolio_value) ∧
    (0 ≤ drawdownRatio 100 50 ∧ drawdownRatio 100 50 ≤ 1) :=
  ⟨peak_monotone_drawdown_bounds.2.1 (RiskManager.init 100) [50],
    peak_monotone_drawdown_bounds.2.2 100 50 (by norm_num) (by norm_num) (by norm_num)⟩

/-- C5: the synthesizer follows the six-row decision table: STRONG BUY /
BUY on an up-trend with sufficiently positive sentiment, STRONG SELL / SELL
on a down-trend with sufficiently negative sentiment, HOLD (not actionable)
on Volatile or Range-Bound, and HOLD (not actionable) on every remaining
combination. -/
theorem synthesize_decision_table (s : ℚ) (mp : String) :
    ((mp = TRENDING_UP ∧ s > 0.5) →
      (synthesize_recommendation s mp).signal = "STRONG BUY" ∧
      (synthesize_recommendation s mp).should_trade = true) ∧
    ((mp = TRENDING_UP ∧ s > 0.15 ∧ s ≤ 0.5) →
      (synthesize_recommendation s mp).signal = "BUY" ∧
      (synthesize_recommendation s mp).should_trade = true) ∧
    ((mp = TRENDING_DOWN ∧ s < -0.5) →
      (synthesize_recommendation s mp).signal = "STRONG SELL" ∧
      (synthesize_recommendation s mp).should_trade = true) ∧
    ((mp = TRENDING_DOWN ∧ -0.5 ≤ s ∧ s < -0.15) →
      (synthesize_recommendation s mp).signal = "SELL" ∧
      (synthesize_recommendation s mp).should_trade = true) ∧
    ((mp = VOLATILE ∨ mp = RANGE_BOUND) →
      (synthesize_recommendation s mp).signal = "HOLD" ∧
      (synthesize_recommendation s mp).should_trade = false) ∧
    ((¬ (mp = TRENDING_UP ∧ s > 0.15) ∧ ¬ (mp = TRENDING_DOWN ∧ s < -0.15) ∧
        ¬ (mp = VOLATILE ∨ mp = RANGE_BOUND)) →
      (synthesize_recommendation s mp).signal = "HOLD" ∧
      (synthesize_recommendation s mp).should_trade = false) := by
  have hud : TRENDING_UP ≠ TRENDING_DOWN := by decide
  have huv : TRENDING_UP ≠ VOLATILE := by decide
  have hur : TRENDING_UP ≠ RANGE_BOUND := by decide
  have hdv : TRENDING_DOWN ≠ VOLATILE := by decide
  have hdr : TRENDING_DOWN ≠ RANGE_BOUND := by decide
  refine ⟨?_, ?_, ?_, ?_, ?_, ?_⟩
  · rintro ⟨rfl, hs⟩
    unfold synthesize_recommendation
    rw [if_pos ⟨rfl, by norm_num at hs ⊢; linarith⟩, if_pos hs]
    exact ⟨rfl, rfl⟩
  · rintro ⟨rfl, hs15, hs5⟩
    unfold synthesize_recommendation
    rw [if_pos ⟨rfl, hs15⟩, if_neg (not_lt.mpr hs5)]
    exact ⟨rfl, rfl⟩
  · rintro ⟨rfl, hs⟩
    unfold synthesize_recommendation
    rw [if_neg (fun h => hud h.1.symm),
      if_pos ⟨rfl, by norm_num at hs ⊢; linarith⟩, if_pos hs]
    exact ⟨rfl, rfl⟩
  · rintro ⟨rfl, hge, hlt⟩
    unfold synthesize_recommendation
    rw [if_neg (fun h => hud h.1.symm), if_pos ⟨rfl, hlt⟩,
      if_neg (not_lt.mpr hge)]
    exact ⟨rfl, rfl⟩
  · rintro (rfl | rfl)
    · unfold synthesize_recommendation
      rw [if_neg (fun h => huv h.1.symm), if_neg (fun h => hdv h.1.symm),
        if_pos (Or.inl rfl)]
      exact ⟨rfl, rfl⟩
    · unfold synthesize_recommendation
      rw [if_neg (fun h => hur h.1.symm), if_neg (fun h => hdr h.1.symm),
        if_pos (Or.inr rfl)]
      exact ⟨rfl, rfl⟩
  · rintro ⟨h1, h2, h3⟩
    unfold synthesize_recommendation
    rw [if_neg h1, if_neg h2, if_neg h3]
    exact ⟨rfl, rfl⟩

/-- Witness for C5 (scenario A): regime Trending Up with sentiment 0.6
yields STRONG BUY, actionable. -/
theorem synthesize_decision_table_witness :
    (synthesize_recommendation 0.6 TRENDING_UP).signal = "STRONG BUY" ∧
    (synthesize_recommendation 0.6 TRENDING_UP).should_trade = true :=
  (synthesize_decision_table 0.6 TRENDING_UP).1 ⟨rfl, by norm_num⟩

/-- C3 counterexample: for sentiment 0.37 and regime Volatile, the rationale
names the regime but does not contain the two-decimal score `"0.37"`: the
Volatile/Range-Bound branch of `_synthesize_recommendation` interpolates
only the personality into its f-string. -/
theorem volatile_rationale_omits_score :
    strContains (synthesize_recommendation (37/100) VOLATILE).reason VOLATILE = true ∧
    fmt2 (37/100) = "0.37" ∧
    strContains (synthesize_recommendation (37/100) VOLATILE).reason (fmt2 (37/100)) = false := by
  refine ⟨?_, ?_, ?_⟩
  · with_unfolding_all rfl
  · with_unfolding_all rfl
  · with_unfolding_all rfl

/-- C3 amended: every branch's rationale names the regime, and every branch
except the Volatile/Range-Bound one also states the sentiment score
formatted to two decimal places; the Volatile/Range-Bound rationale omits
the score. -/
theorem rationale_traceability (s : ℚ) (mp : String) :
    strContains (synthesize_recommendation s mp).reason mp = true ∧
    (¬ (mp = VOLATILE ∨ mp = RANGE_BOUND) →
      strContains (synthesize_recommendation s mp).reason (fmt2 s) = true) := by
  unfold synthesize_recommendation
  split_ifs with h1 h2 h3 h4 h5 <;>
    simp only [strContains, String.data_append, List.append_assoc] <;>
    constructor
  · exact subsearch_append_left _ (subsearch_self_append _ _) _
  · intro _
    exact subsearch_append_left _ (subsearch_append_left _
      (subsearch_append_left _ (subsearch_self_append _ _) _) _) _
  · exact subsearch_append_left _ (subsearch_self_append _ _) _
  · intro _
    exact subsearch_append_left _ (subsearch_append_left _
      (subsearch_append_left _ (subsearch_self_append _ _) _) _) _
  · exact subsearch_append_left _ (subsearch_self_append _ _) _
  · intro _
    exact subsearch_append_left _ (subsearch_append_left _
      (subsearch_append_left _ (subsearch_self_append _ _) _) _) _
  · exact subsearch_append_left _ (subsearch_self_append _ _) _
  · intro _
    exact subsearch_append_left _ (subsearch_append_left _
      (subsearch_append_left _ (subsearch_self_append _ _) _) _) _
  · exact subsearch_append_left _ (subsearch_self_append _ _) _
  · intro hn
    exact absurd h5 hn
  · exact subsearch_append_left _ (subsearch_self_append _ _) _
  · intro _
    exact subsearch_append_left _ (subsearch_append_left _
      (subsearch_append_left _ (subsearch_self_append _ _) _) _) _

/-- Witness for C3 amended: regime Trending Up, sentiment 0.6 — the BUY
rationale contains both `"Trending Up"` and `"0.60"`. -/
theorem rationale_traceability_witness :
    strContains (synthesize_recommendation 0.6 TRENDING_UP).reason TRENDING_UP = true ∧
    strContains (synthesize_recommendation 0.6 TRENDING_UP).reason (fmt2 0.6) = true :=
  ⟨(rationale_traceability 0.6 TRENDING_UP).1,
    (rationale_traceability 0.6 TRENDING_UP).2
      (by rintro (h | h) <;> exact absurd h (by decide))⟩

/-- C4 counterexample: the 39-bar series 1..39 has only 10 non-NaN long-MA
points (fewer than 11), yet the guard `len(long_ma) > 10` counts rows, not
points, so the slope is the real number 9/10 (not 0, not NaN), the trend
branch fires, and `detect_personality` returns Trending Up. -/
theorem ten_point_long_ma_trend_counterexample :
    series39.length = 39 ∧
    longMaCount series39 = 10 ∧
    longMaSlope series39 = some (9/10) ∧
    detect_personality series39 = TRENDING_UP := by
  refine ⟨?_, ?_, ?_, ?_⟩
  · with_unfolding_all rfl
  · with_unfolding_all rfl
  · with_unfolding_all rfl
  · with_unfolding_all rfl

/-- C4 amended: the slope expression is
`(long_ma[-1] - long_ma[-10]) / 10 if len(long_ma) > 10 else 0`, where the
guard counts rows of the rolling series (NaNs included), not non-NaN long-MA
points: the slope is the literal 0 only for series of at most 10 bars.  For
a series of more than 10 but at most 38 bars one of the two inspected
rolling-mean rows is NaN, so the slope is NaN; hence for 20 ≤ bars ≤ 38
(at most 9 long-MA points) the trend branch cannot fire and classification
yields Volatile or Range-Bound.  (At 39 bars — still only 10 long-MA
points — the slope is real and the trend branch can fire, refuting the
original claim.) -/
theorem short_series_slope_nan :
    (∀ closes : List ℚ, closes.length ≤ 10 → longMaSlope closes = some 0) ∧
    (∀ closes : List ℚ, 10 < closes.length → closes.length ≤ 38 →
      longMaSlope closes = none) ∧
    (∀ closes : List ℚ, 20 ≤ closes.length → closes.length ≤ 38 →
      detect_personality closes = VOLATILE ∨ detect_personality closes = RANGE_BOUND) := by
  have part2 : ∀ closes : List ℚ, 10 < closes.length → closes.length ≤ 38 →
      longMaSlope closes = none := by
    intro closes h10 h38
    unfold longMaSlope
    rw [if_pos h10]
    have hsecond : rollingMeanAt 30 closes (closes.length - 10) = none := by
      unfold rollingMeanAt
      rw [if_pos (by omega)]
    rw [hsecond]
    cases hA : rollingMeanAt 30 closes (closes.length - 1) <;> rfl
  refine ⟨?_, part2, ?_⟩
  · intro closes h
    unfold longMaSlope
    rw [if_neg (not_lt.mpr h)]
  · intro closes h20 h38
    have hs := part2 closes (by omega) h38
    unfold detect_personality
    rw [if_neg (not_lt.mpr h20)]
    dsimp only
    have hfalse : optAbsGt (longMaSlope closes) 0.5 = false := by
      rw [hs]
      rfl
    rw [hfalse]
    simp only [Bool.false_eq_true, if_false]
    cases hv : volHigh closes
    · right
      simp
    · left
      simp

/-- Witness for C4 amended: a constant 20-bar series is classified
Range-Bound (slope NaN, zero volatility), and a 5-bar series has slope 0. -/
theorem short_series_slope_nan_witness :
    longMaSlope [1, 1, 1, 1, 1] = some 0 ∧
    longMaSlope [1, 1, 1, 1, 1, 1, 1, 1, 1, 1, 1, 1, 1, 1, 1, 1, 1, 1, 1, 1] = none ∧
    (detect_personality [1, 1, 1, 1, 1, 1, 1, 1, 1, 1, 1, 1, 1, 1, 1, 1, 1, 1, 1, 1] = VOLATILE ∨
      detect_personality [1, 1, 1, 1, 1, 1, 1, 1, 1, 1, 1, 1, 1, 1, 1, 1, 1, 1, 1, 1] = RANGE_BOUND) :=
  ⟨short_series_slope_nan.1 [1, 1, 1, 1, 1] (by norm_num),
    short_series_slope_nan.2.1 [1, 1, 1, 1, 1, 1, 1, 1, 1, 1, 1, 1, 1, 1, 1, 1, 1, 1, 1, 1]
      (by norm_num) (by norm_num),
    short_series_slope_nan.2.2 [1, 1, 1, 1, 1, 1, 1, 1, 1, 1, 1, 1, 1, 1, 1, 1, 1, 1, 1, 1]
      (by norm_num) (by norm_num)⟩

/-- C9: every sentiment score the analyzer can return is non-negative — the
live path averages per-headline values `len(title) % 10 / 10 ∈ [0, 0.9]`
(and falls back to 0.5 with no articles), the network-error fallback is 0.5,
and the simulated score is the uniform sample from (0.1, 0.9) — so the
synthesizer, fed a non-negative score, can never output SELL or STRONG SELL
(those require a score below −0.15). -/
theorem sentiment_nonneg_no_sell :
    (∀ titles : List String,
      0 ≤ live_sentiment_score titles ∧ live_sentiment_score titles ≤ 9/10) ∧
    (0 ≤ error_sentiment_score) ∧
    (∀ u : ℚ, 1/10 ≤ u → 0 ≤ (get_simulated_sentiment u).1) ∧
    (∀ (s : ℚ) (mp : String), 0 ≤ s →
      (synthesize_recommendation s mp).signal ≠ "SELL" ∧
      (synthesize_recommendation s mp).signal ≠ "STRONG SELL") := by
  refine ⟨?_, by norm_num [error_sentiment_score], ?_, ?_⟩
  · intro titles
    unfold live_sentiment_score
    by_cases he : titles.isEmpty
    · rw [if_pos he]
      norm_num
    · rw [if_neg he]
      have hne : titles ≠ [] := by
        cases titles with
        | nil => simp at he
        | cons a t => exact List.cons_ne_nil a t
      have hmem : ∀ x ∈ (titles.take 10).map (fun t => ((t.length % 10 : ℕ) : ℚ) / 10),
          0 ≤ x ∧ x ≤ 9/10 := by
        intro x hx
        obtain ⟨t, _, rfl⟩ := List.mem_map.mp hx
        constructor
        · positivity
        · have h9 : ((t.length % 10 : ℕ) : ℚ) ≤ 9 := by
            exact_mod_cast Nat.le_of_lt_succ (Nat.mod_lt _ (by norm_num))
          rw [div_le_div_iff_of_pos_right (by norm_num)]
          exact h9
      have hlen : 0 < ((titles.take 10).map
          (fun t => ((t.length % 10 : ℕ) : ℚ) / 10)).length := by
        rw [List.length_map, List.length_take]
        have : 0 < titles.length := List.length_pos.mpr hne
        omega
      have hlenq : (0 : ℚ) < (((titles.take 10).map
          (fun t => ((t.length % 10 : ℕ) : ℚ) / 10)).length : ℚ) := by
        exact_mod_cast hlen
      constructor
      · exact div_nonneg (List.sum_nonneg fun x hx => (hmem x hx).1) hlenq.le
      · rw [div_le_iff₀ hlenq]
        calc ((titles.take 10).map (fun t => ((t.length % 10 : ℕ) : ℚ) / 10)).sum
            ≤ ((titles.take 10).map (fun t => ((t.length % 10 : ℕ) : ℚ) / 10)).length
                • (9/10 : ℚ) :=
              List.sum_le_card_nsmul _ _ fun x hx => (hmem x hx).2
          _ = 9/10 *
              (((titles.take 10).map (fun t => ((t.length % 10 : ℕ) : ℚ) / 10)).length : ℚ) := by
              rw [nsmul_eq_mul, mul_comm]
  · intro u hu
    unfold get_simulated_sentiment
    split_ifs <;> dsimp only <;> linarith
  · intro s mp hs
    unfold synthesize_recommendation
    split_ifs with h1 h2 h3 h4 h5
    · exact ⟨show ("STRONG BUY" : String) ≠ "SELL" by decide,
        show ("STRONG BUY" : String) ≠ "STRONG SELL" by decide⟩
    · exact ⟨show ("BUY" : String) ≠ "SELL" by decide,
        show ("BUY" : String) ≠ "STRONG SELL" by decide⟩
    · exfalso
      have := h3.2
      norm_num at this
      linarith
    · exfalso
      have := h3.2
      norm_num at this
      linarith
    · exact ⟨show ("HOLD" : String) ≠ "SELL" by decide,
        show ("HOLD" : String) ≠ "STRONG SELL" by decide⟩
    · exact ⟨show ("HOLD" : String) ≠ "SELL" by decide,
        show ("HOLD" : String) ≠ "STRONG SELL" by decide⟩

/-- Witness for C9: one-headline live score 9/10 ∈ [0, 9/10]; simulated
sample 1/2 is non-negative; a non-negative score 1/2 on a down-trend regime
yields a non-SELL signal. -/
theorem sentiment_nonneg_no_sell_witness :
    (0 ≤ live_sentiment_score ["Fed raises"] ∧
      live_sentiment_score ["Fed raises"] ≤ 9/10) ∧
    (0 ≤ (get_simulated_sentiment (1/2)).1) ∧
    ((synthesize_recommendation (1/2) TRENDING_DOWN).signal ≠ "SELL" ∧
      (synthesize_recommendation (1/2) TRENDING_DOWN).signal ≠ "STRONG SELL") :=
  ⟨sentiment_nonneg_no_sell.1 ["Fed raises"],
    sentiment_nonneg_no_sell.2.2.1 (1/2) (by norm_num),
    sentiment_nonneg_no_sell.2.2.2 (1/2) TRENDING_DOWN (by norm_num)⟩

/-- C1: `run_analysis` never reaches the empty-series `{"error": ...}`
branch nor the recommendation assembly: `get_price_data` returns a
`(DataFrame, error)` tuple on every path, and `run_analysis` evaluates
`price_data.empty` on that tuple, so every invocation — whatever the symbol,
time frame, price rows (empty or not) or sentiment — raises
`AttributeError`. -/
theorem run_analysis_raises_attribute_error
    (rm : RiskManager) (symbol time_frame : String) (rows : List ℚ)
    (err : Option String) (sentiment_score : ℚ) :
    run_analysis rm symbol time_frame rows err sentiment_score =
      Except.error (PyErr.attributeError "tuple object has no attribute empty") := rfl

end Ammo
